import Mathlib

/-!
# SwiftBook server — authorization and role-gating core, shallow embedding

This file embeds the authorization/role-gating pipeline of the SwiftBook
Express server (`index.js`, latest revision: the one with `ensureDb`,
`connectDBWithRetry` and try/catch wrappers) and proves the specified
properties about it.

Modelling conventions:
* The MongoDB `users` collection is a list of records; `findOne({email})`
  is `List.find?` on the email field.
* Firebase token verification (`admin.auth().verifyIdToken`) is an external
  trust authority; it is modelled as an oracle `String → Option Principal`
  supplied as a parameter.  `none` models a token the provider rejects
  (invalid / expired / unsigned, or the `undefined` token produced when the
  header has no second word).
* An Express middleware either sends a response (short-circuiting the
  chain) or calls `next()`; a route is the sequential composition of its
  middleware chain as registered in `app.get/post/...`.
* Each route execution also records the trace of document-store operations
  it performs, in order, so that "the store is never queried" and
  "exactly one role lookup" are statable.
* `dbConnected` models the `dbConnected && usersCollection` readiness flag
  checked by `ensureDb` (both are set together by `connectDBWithRetry`);
  `app.use(ensureDb)` is registered before every route, so every route
  begins with that check.
* `new Date()` timestamps are modelled as a `Nat` parameter `now`.
-/

namespace SwiftBook

/-- A stored principal record in the `users` collection.  `role` is a free
string in the store (the PATCH role route writes an arbitrary string);
`name` stands for the remaining client-supplied registration fields, which
are inserted unchanged. -/
structure UserRecord where
  email : String
  role : String
  name : String
  createdAt : Nat
deriving Repr, DecidableEq

/-- The `users` collection. -/
abbrev UsersStore := List UserRecord

/-- `usersCollection.findOne({ email })`. -/
def findOneByEmail (users : UsersStore) (email : String) : Option UserRecord :=
  users.find? (fun u => u.email == email)

/-- The verified principal produced by the identity provider:
`decoded.email` and `decoded.uid`. -/
structure Principal where
  email : String
  uid : String
deriving Repr, DecidableEq

/-- The external identity provider: maps a token to a verified principal,
or rejects it (`none`). -/
abbrev TokenOracle := String → Option Principal

/-- An error response sent by a middleware or handler:
`res.status(s).send({ message })`. -/
structure Rejection where
  status : Nat
  message : String
deriving Repr, DecidableEq

/-- JavaScript `str.split(" ")` on the character list: split at every
single space, keeping empty fields (`"".split(" ")` is `[""]`,
`"a  b".split(" ")` is `["a","","b"]`). -/
def splitOnSpace : List Char → List (List Char)
  | [] => [[]]
  | a :: rest =>
    match splitOnSpace rest with
    | [] => [[]]
    | w :: ws => if a = ' ' then [] :: w :: ws else (a :: w) :: ws

/-- `authHeader.split(" ")[1]` — the token extracted from the
`Authorization` header (`none` models JavaScript `undefined`). -/
def bearerToken (header : String) : Option String :=
  ((splitOnSpace header.toList).get? 1).map (fun cs => String.mk cs)

/-- The `verifyFBToken` middleware (`index.js` lines 34–49): reject with
401 `"Unauthorized"` when the header is absent or falsy (`!authHeader` is
true for JavaScript `undefined` and for the empty string); otherwise hand
the second word of the header to the identity provider, rejecting with
401 `"Invalid Token"` when the provider rejects it (a missing second word
is the `undefined` token, which the provider always rejects). -/
def verifyFBToken (oracle : TokenOracle) (authHeader : Option String) :
    Except Rejection Principal :=
  match authHeader with
  | none => .error ⟨401, "Unauthorized"⟩
  | some h =>
    if h = "" then .error ⟨401, "Unauthorized"⟩
    else
      match bearerToken h with
      | none => .error ⟨401, "Invalid Token"⟩
      | some tok =>
        match oracle tok with
        | none => .error ⟨401, "Invalid Token"⟩
        | some p => .ok p

/-- The identity provider rejects the request's credential: either the
header has no second word (the token is `undefined`) or the oracle
rejects the extracted token. -/
def tokenRejected (oracle : TokenOracle) (header : String) : Bool :=
  match bearerToken header with
  | none => true
  | some tok => (oracle tok).isNone

/-- Whether `verifyFBToken` short-circuits (boolean form, for stating
hypotheses). -/
def verifyFails (oracle : TokenOracle) (authHeader : Option String) : Bool :=
  match verifyFBToken oracle authHeader with
  | .error _ => true
  | .ok _ => false

/-- Result of a role-check middleware: send a rejection, or call
`next()`. -/
inductive GateResult where
  | reject (r : Rejection)
  | pass
deriving Repr, DecidableEq

/-- `verifyAdmin` (lines 114–123): one `findOne` by the verified email;
`if (!user || user.role !== "admin")` reject 403 `"Forbidden"`. -/
def verifyAdmin (users : UsersStore) (decodedEmail : String) : GateResult :=
  match findOneByEmail users decodedEmail with
  | none => .reject ⟨403, "Forbidden"⟩
  | some user =>
    if user.role ≠ "admin" then .reject ⟨403, "Forbidden"⟩ else .pass

/-- `verifyLibrarian` (lines 125–135): `if (!user || (user.role !==
"librarian" && user.role !== "admin"))` reject 403 `"Forbidden"`. -/
def verifyLibrarian (users : UsersStore) (decodedEmail : String) : GateResult :=
  match findOneByEmail users decodedEmail with
  | none => .reject ⟨403, "Forbidden"⟩
  | some user =>
    if user.role ≠ "librarian" ∧ user.role ≠ "admin" then
      .reject ⟨403, "Forbidden"⟩
    else .pass

/-- `verifyAdminOrLibrarian` (lines 137–147): `if (!user || (user.role !==
"admin" && user.role !== "librarian"))` reject 403 `"Admin/Librarian
only"`. -/
def verifyAdminOrLibrarian (users : UsersStore) (decodedEmail : String) : GateResult :=
  match findOneByEmail users decodedEmail with
  | none => .reject ⟨403, "Admin/Librarian only"⟩
  | some user =>
    if user.role ≠ "admin" ∧ user.role ≠ "librarian" then
      .reject ⟨403, "Admin/Librarian only"⟩
    else .pass

/-- Whether a gate lets the request through. -/
def gateAccepts : GateResult → Bool
  | .pass => true
  | .reject _ => false

/-- An order record, restricted to the fields the modelled reads use
(`bookId`, `customerEmail`). -/
structure OrderRecord where
  bookId : String
  customerEmail : String
deriving Repr, DecidableEq

/-- A review document as built by `POST /reviews` (lines 441–449). -/
structure ReviewRecord where
  bookId : String
  userEmail : String
  userName : String
  userPhoto : String
  rating : Nat
  comment : String
  date : Nat
deriving Repr, DecidableEq

/-- `ordersCollection.findOne({ bookId, customerEmail })`. -/
def ordersFindOne (orders : List OrderRecord) (bookId email : String) :
    Option OrderRecord :=
  orders.find? (fun o => o.bookId == bookId && o.customerEmail == email)

/-- `reviewsCollection.findOne({ bookId, userEmail })`. -/
def reviewsFindOne (reviews : List ReviewRecord) (bookId email : String) :
    Option ReviewRecord :=
  reviews.find? (fun r => r.bookId == bookId && r.userEmail == email)

/-- One document-store operation, as issued by the modelled routes, in
order. -/
inductive StoreOp where
  | usersFindOne (email : String)
  | usersFindAll
  | booksFindAll
  | booksFindPublished
  | ordersFindAll
  | ordersFindByCustomer (email : String)
  | ordersFindOneOp (bookId email : String)
  | reviewsFindOneOp (bookId email : String)
  | reviewsInsert (r : ReviewRecord)
deriving Repr, DecidableEq

/-- A role lookup: a `findOne`-by-email read of the users collection. -/
def StoreOp.isRoleLookup : StoreOp → Bool
  | .usersFindOne _ => true
  | _ => false

/-- Process-wide server state: the readiness flag checked by `ensureDb`
and the collections the modelled routes read. -/
structure ServerState where
  dbConnected : Bool
  users : UsersStore
  orders : List OrderRecord
  reviews : List ReviewRecord
deriving Repr, DecidableEq

/-- Final disposition of a request: a rejection response, or the handler's
business response. -/
inductive RouteResult where
  | rejected (r : Rejection)
  | ok
deriving Repr, DecidableEq

/-- What a route execution produced: the disposition, whether control
reached the route's own handler (past every middleware), and the trace of
store operations issued, in order. -/
structure Outcome where
  result : RouteResult
  handlerRan : Bool
  trace : List StoreOp
deriving Repr, DecidableEq

/-- The `ensureDb` 503 response (lines 102–107). -/
def storeUnavailable : Rejection :=
  ⟨503, "Service temporarily unavailable. DB not ready."⟩

/-- Outcome of a request intercepted before any store access. -/
def shortCircuit (r : Rejection) : Outcome :=
  { result := .rejected r, handlerRan := false, trace := [] }

/-- `GET /users` (line 169): `ensureDb`, `verifyFBToken`, `verifyAdmin`,
then the handler reads the whole users collection. -/
def getUsersRoute (oracle : TokenOracle) (st : ServerState)
    (authHeader : Option String) : Outcome :=
  if ¬ st.dbConnected then shortCircuit storeUnavailable
  else
    match verifyFBToken oracle authHeader with
    | .error r => shortCircuit r
    | .ok p =>
      match verifyAdmin st.users p.email with
      | .reject r =>
        { result := .rejected r, handlerRan := false,
          trace := [.usersFindOne p.email] }
      | .pass =>
        { result := .ok, handlerRan := true,
          trace := [.usersFindOne p.email, .usersFindAll] }

/-- `GET /orders` (line 317): `ensureDb`, `verifyFBToken`,
`verifyLibrarian`, then the handler reads the whole orders collection. -/
def getOrdersRoute (oracle : TokenOracle) (st : ServerState)
    (authHeader : Option String) : Outcome :=
  if ¬ st.dbConnected then shortCircuit storeUnavailable
  else
    match verifyFBToken oracle authHeader with
    | .error r => shortCircuit r
    | .ok p =>
      match verifyLibrarian st.users p.email with
      | .reject r =>
        { result := .rejected r, handlerRan := false,
          trace := [.usersFindOne p.email] }
      | .pass =>
        { result := .ok, handlerRan := true,
          trace := [.usersFindOne p.email, .ordersFindAll] }

/-- `GET /books` (lines 227–240): `ensureDb`, `verifyFBToken`,
`verifyAdminOrLibrarian`, then the handler performs its own
`usersCollection.findOne({ email: req.decoded_email })` and branches on
`user.role` to choose the books query.  (When the gate passed, the second
lookup finds the same record, so `user` is never null here.) -/
def getBooksRoute (oracle : TokenOracle) (st : ServerState)
    (authHeader : Option String) : Outcome :=
  if ¬ st.dbConnected then shortCircuit storeUnavailable
  else
    match verifyFBToken oracle authHeader with
    | .error r => shortCircuit r
    | .ok p =>
      match verifyAdminOrLibrarian st.users p.email with
      | .reject r =>
        { result := .rejected r, handlerRan := false,
          trace := [.usersFindOne p.email] }
      | .pass =>
        match findOneByEmail st.users p.email with
        | none =>
          -- `user.role` on null throws; the catch block answers 500.
          { result := .rejected ⟨500, "Failed to fetch books"⟩,
            handlerRan := true,
            trace := [.usersFindOne p.email, .usersFindOne p.email] }
        | some user =>
          if user.role = "admin" ∨ user.role = "librarian" then
            { result := .ok, handlerRan := true,
              trace := [.usersFindOne p.email, .usersFindOne p.email,
                        .booksFindAll] }
          else
            { result := .ok, handlerRan := true,
              trace := [.usersFindOne p.email, .usersFindOne p.email,
                        .booksFindPublished] }

/-- `GET /orders/:email` (lines 304–315): `ensureDb`, `verifyFBToken`,
then the handler compares the path email with the verified email and, on a
match, reads that customer's orders. -/
def getOrdersByEmailRoute (oracle : TokenOracle) (st : ServerState)
    (authHeader : Option String) (paramsEmail : String) : Outcome :=
  if ¬ st.dbConnected then shortCircuit storeUnavailable
  else
    match verifyFBToken oracle authHeader with
    | .error r => shortCircuit r
    | .ok p =>
      if paramsEmail ≠ p.email then
        { result := .rejected ⟨403, "Forbidden"⟩, handlerRan := true,
          trace := [] }
      else
        { result := .ok, handlerRan := true,
          trace := [.ordersFindByCustomer paramsEmail] }

/-- The client-supplied body of `POST /reviews` (line 421). -/
structure ReviewBody where
  bookId : String
  userEmail : String
  rating : Nat
  comment : String
  userName : String
  userPhoto : String
deriving Repr, DecidableEq

/-- `POST /reviews` (lines 419–457): `ensureDb`, `verifyFBToken`, then the
handler checks purchase (`ordersCollection.findOne({ bookId,
customerEmail: userEmail })`) and duplicate review using the
**body-supplied** `userEmail`, and inserts the review on success.  Returns
the outcome together with the reviews collection after the request. -/
def postReviewsRoute (oracle : TokenOracle) (st : ServerState)
    (authHeader : Option String) (body : ReviewBody) (now : Nat) :
    Outcome × List ReviewRecord :=
  if ¬ st.dbConnected then (shortCircuit storeUnavailable, st.reviews)
  else
    match verifyFBToken oracle authHeader with
    | .error r => (shortCircuit r, st.reviews)
    | .ok _ =>
      match ordersFindOne st.orders body.bookId body.userEmail with
      | none =>
        ({ result := .rejected ⟨403, "You must purchase this book to review"⟩,
           handlerRan := true,
           trace := [.ordersFindOneOp body.bookId body.userEmail] },
         st.reviews)
      | some _ =>
        match reviewsFindOne st.reviews body.bookId body.userEmail with
        | some _ =>
          ({ result := .rejected ⟨400, "You already reviewed this book"⟩,
             handlerRan := true,
             trace := [.ordersFindOneOp body.bookId body.userEmail,
                       .reviewsFindOneOp body.bookId body.userEmail] },
           st.reviews)
        | none =>
          let review : ReviewRecord :=
            { bookId := body.bookId, userEmail := body.userEmail,
              userName := body.userName, userPhoto := body.userPhoto,
              rating := body.rating, comment := body.comment, date := now }
          ({ result := .ok, handlerRan := true,
             trace := [.ordersFindOneOp body.bookId body.userEmail,
                       .reviewsFindOneOp body.bookId body.userEmail,
                       .reviewsInsert review] },
           st.reviews ++ [review])

/-- The client-supplied body of `POST /users`: an email, other profile
fields (`name`), and possibly a client-chosen `role` field. -/
structure RegBody where
  email : String
  name : String
  role : Option String
deriving Repr, DecidableEq

/-- The response of `POST /users`: the distinct "already exists" signal
(`res.send({ message: "user exists" })`, status 200), or a successful
insert. -/
inductive RegResult where
  | userExists
  | inserted
deriving Repr, DecidableEq

/-- `POST /users` (lines 152–167): overwrite `user.role = "user"` and
`user.createdAt = now` on the body, look the email up, send the
"user exists" signal without inserting when a record is found, insert
otherwise. -/
def postUsers (users : UsersStore) (body : RegBody) (now : Nat) :
    UsersStore × RegResult :=
  let user : UserRecord :=
    { email := body.email, role := "user", name := body.name, createdAt := now }
  match findOneByEmail users body.email with
  | some _ => (users, .userExists)
  | none => (users ++ [user], .inserted)

/-- Number of records with a given email in the users collection. -/
def countByEmail (users : UsersStore) (email : String) : Nat :=
  users.countP (fun u => u.email == email)

/-- Status observed at a gate: `none` when it passes, the rejection status
otherwise. -/
def gateStatus : GateResult → Option Nat
  | .pass => none
  | .reject r => some r.status

/-! ## Helper lemmas -/

lemma verifyFBToken_none (oracle : TokenOracle) :
    verifyFBToken oracle none = .error ⟨401, "Unauthorized"⟩ := rfl

lemma verifyFBToken_invalid (oracle : TokenOracle) (s : String)
    (h1 : s ≠ "") (h2 : tokenRejected oracle s = true) :
    verifyFBToken oracle (some s) = .error ⟨401, "Invalid Token"⟩ := by
  unfold verifyFBToken
  dsimp only
  rw [if_neg h1]
  unfold tokenRejected at h2
  cases hb : bearerToken s with
  | none => rfl
  | some tok =>
    rw [hb] at h2
    dsimp only at h2 ⊢
    cases ho : oracle tok with
    | none => rfl
    | some p => rw [ho] at h2; simp at h2

lemma verifyFBToken_error_status (oracle : TokenOracle) (h : Option String)
    (r : Rejection) (he : verifyFBToken oracle h = .error r) : r.status = 401 := by
  unfold verifyFBToken at he
  rcases h with _ | s
  · injection he with h3; rw [← h3]
  · dsimp only at he
    split_ifs at he
    · injection he with h3; rw [← h3]
    · rcases hb : bearerToken s with _ | tok
      · rw [hb] at he; injection he with h3; rw [← h3]
      · rw [hb] at he
        dsimp only at he
        rcases ho : oracle tok with _ | p
        · rw [ho] at he; injection he with h3; rw [← h3]
        · rw [ho] at he; exact absurd he (by simp)

lemma verifyFails_iff (oracle : TokenOracle) (h : Option String) :
    verifyFails oracle h = true ↔ ∃ r, verifyFBToken oracle h = .error r := by
  unfold verifyFails
  cases hv : verifyFBToken oracle h <;> simp

lemma routes_shortCircuit_on_error (oracle : TokenOracle) (st : ServerState)
    (h : Option String) (r : Rejection)
    (hdb : st.dbConnected = true) (he : verifyFBToken oracle h = .error r) :
    getUsersRoute oracle st h = shortCircuit r ∧
    getOrdersRoute oracle st h = shortCircuit r ∧
    getBooksRoute oracle st h = shortCircuit r ∧
    (∀ pe, getOrdersByEmailRoute oracle st h pe = shortCircuit r) ∧
    (∀ body now, postReviewsRoute oracle st h body now = (shortCircuit r, st.reviews)) := by
  refine ⟨?_, ?_, ?_, ?_, ?_⟩ <;>
    simp [getUsersRoute, getOrdersRoute, getBooksRoute, getOrdersByEmailRoute,
          postReviewsRoute, hdb, he]

/-! ## Theorems -/

/-- C1: fail-closed gating on a missing principal record — when token
verification succeeds but the verified email has no record in the users
store, all three role gates reject with status 403 (`verifyAdmin` and
`verifyLibrarian` with message `"Forbidden"`, `verifyAdminOrLibrarian`
with `"Admin/Librarian only"`); in the gated routes the handler never
runs and the absent record is never treated as role `user`. -/
theorem missing_record_fails_closed
    (oracle : TokenOracle) (st : ServerState) (authHeader : Option String)
    (p : Principal)
    (hdb : st.dbConnected = true)
    (hver : verifyFBToken oracle authHeader = .ok p)
    (hnone : findOneByEmail st.users p.email = none) :
    verifyAdmin st.users p.email = .reject ⟨403, "Forbidden"⟩ ∧
    verifyLibrarian st.users p.email = .reject ⟨403, "Forbidden"⟩ ∧
    verifyAdminOrLibrarian st.users p.email = .reject ⟨403, "Admin/Librarian only"⟩ ∧
    getUsersRoute oracle st authHeader =
      { result := .rejected ⟨403, "Forbidden"⟩, handlerRan := false,
        trace := [.usersFindOne p.email] } ∧
    getOrdersRoute oracle st authHeader =
      { result := .rejected ⟨403, "Forbidden"⟩, handlerRan := false,
        trace := [.usersFindOne p.email] } ∧
    getBooksRoute oracle st authHeader =
      { result := .rejected ⟨403, "Admin/Librarian only"⟩, handlerRan := false,
        trace := [.usersFindOne p.email] } := by
  have hA : verifyAdmin st.users p.email = .reject ⟨403, "Forbidden"⟩ := by
    unfold verifyAdmin; rw [hnone]
  have hL : verifyLibrarian st.users p.email = .reject ⟨403, "Forbidden"⟩ := by
    unfold verifyLibrarian; rw [hnone]
  have hAL : verifyAdminOrLibrarian st.users p.email
      = .reject ⟨403, "Admin/Librarian only"⟩ := by
    unfold verifyAdminOrLibrarian; rw [hnone]
  refine ⟨hA, hL, hAL, ?_, ?_, ?_⟩ <;>
    simp [getUsersRoute, getOrdersRoute, getBooksRoute, hdb, hver, hA, hL, hAL]

/-- Witness for C1 at a concrete oracle, store and request. -/
theorem missing_record_fails_closed_witness :
    getUsersRoute (fun t => if t = "tokA" then some ⟨"alice@x", "u1"⟩ else none)
      ⟨true, [], [], []⟩ (some "Bearer tokA") =
      { result := .rejected ⟨403, "Forbidden"⟩, handlerRan := false,
        trace := [.usersFindOne "alice@x"] } :=
  (missing_record_fails_closed
      (fun t => if t = "tokA" then some ⟨"alice@x", "u1"⟩ else none)
      ⟨true, [], [], []⟩ (some "Bearer tokA") ⟨"alice@x", "u1"⟩
      rfl rfl rfl).2.2.2.1

/-- C2: role-predicate truth table — with a stored record, `verifyAdmin`
passes exactly for role `admin`; `verifyLibrarian` and
`verifyAdminOrLibrarian` pass exactly for roles `librarian` or `admin`;
role `user` is rejected with status 403 by all three gates. -/
theorem role_truth_table (users : UsersStore) (email : String) (u : UserRecord)
    (hu : findOneByEmail users email = some u) :
    (verifyAdmin users email = .pass ↔ u.role = "admin") ∧
    (verifyLibrarian users email = .pass ↔
      (u.role = "librarian" ∨ u.role = "admin")) ∧
    (verifyAdminOrLibrarian users email = .pass ↔
      (u.role = "admin" ∨ u.role = "librarian")) ∧
    (u.role = "user" →
      verifyAdmin users email = .reject ⟨403, "Forbidden"⟩ ∧
      verifyLibrarian users email = .reject ⟨403, "Forbidden"⟩ ∧
      verifyAdminOrLibrarian users email
        = .reject ⟨403, "Admin/Librarian only"⟩) := by
  unfold verifyAdmin verifyLibrarian verifyAdminOrLibrarian
  simp only [hu]
  refine ⟨?_, ?_, ?_, ?_⟩
  · split_ifs with h <;> simp_all
  · split_ifs with h <;> (push_neg at h; simp_all; try tauto)
  · split_ifs with h <;> (push_neg at h; simp_all; try tauto)
  · intro hr
    rw [hr]
    refine ⟨?_, ?_, ?_⟩ <;> decide

/-- Witness for C2 at a concrete store holding a librarian record. -/
theorem role_truth_table_witness :
    verifyLibrarian [⟨"a@x", "librarian", "L", 0⟩] "a@x" = .pass :=
  ((role_truth_table [⟨"a@x", "librarian", "L", 0⟩] "a@x"
      ⟨"a@x", "librarian", "L", 0⟩ rfl).2.1).mpr (Or.inl rfl)

/-- C9: the two librarian-level predicates are set-equal — for every
store and email (including a missing record), `verifyLibrarian` and
`verifyAdminOrLibrarian` make the same accept/reject decision and reject
with the same status; they differ at most in the message. -/
theorem librarian_predicates_set_equal (users : UsersStore) (email : String) :
    gateAccepts (verifyLibrarian users email) =
      gateAccepts (verifyAdminOrLibrarian users email) ∧
    gateStatus (verifyLibrarian users email) =
      gateStatus (verifyAdminOrLibrarian users email) := by
  unfold verifyLibrarian verifyAdminOrLibrarian
  cases hfind : findOneByEmail users email with
  | none => exact ⟨rfl, rfl⟩
  | some u =>
    by_cases h1 : u.role = "librarian" <;> by_cases h2 : u.role = "admin" <;>
      simp [h1, h2, gateAccepts, gateStatus]

/-- C4: verifier error contract — with the store ready (the only state in
which the server accepts traffic), a missing `Authorization` header is
rejected 401 `"Unauthorized"`, a present non-empty header whose token the
provider rejects is rejected 401 `"Invalid Token"`, and on any verifier
error every modelled route short-circuits: the handler does not run and
no store operation is issued. -/
theorem verifier_error_contract
    (oracle : TokenOracle) (st : ServerState) (hdb : st.dbConnected = true) :
    verifyFBToken oracle none = .error ⟨401, "Unauthorized"⟩ ∧
    (∀ s, s ≠ "" → tokenRejected oracle s = true →
      verifyFBToken oracle (some s) = .error ⟨401, "Invalid Token"⟩) ∧
    (∀ h r, verifyFBToken oracle h = .error r →
      getUsersRoute oracle st h = ⟨.rejected r, false, []⟩ ∧
      getOrdersRoute oracle st h = ⟨.rejected r, false, []⟩ ∧
      getBooksRoute oracle st h = ⟨.rejected r, false, []⟩ ∧
      (∀ pe, getOrdersByEmailRoute oracle st h pe = ⟨.rejected r, false, []⟩) ∧
      (∀ body now,
        postReviewsRoute oracle st h body now = (⟨.rejected r, false, []⟩, st.reviews))) := by
  refine ⟨verifyFBToken_none oracle, verifyFBToken_invalid oracle, ?_⟩
  intro h r he
  exact routes_shortCircuit_on_error oracle st h r hdb he

/-- Witness for C4: a concrete request with no `Authorization` header. -/
theorem verifier_error_contract_witness :
    getUsersRoute (fun _ => none) ⟨true, [], [], []⟩ none
      = ⟨.rejected ⟨401, "Unauthorized"⟩, false, []⟩ :=
  ((verifier_error_contract (fun _ => none) ⟨true, [], [], []⟩ rfl).2.2
    none ⟨401, "Unauthorized"⟩ rfl).1

/-- C6: verification strictly precedes the gate — whenever `verifyFBToken`
fails (header absent or token rejected), every modelled route answers a
401 rejection with an empty store trace: the users collection is never
queried, no handler runs, and `POST /reviews` leaves the reviews
collection unchanged. -/
theorem verification_precedes_gate
    (oracle : TokenOracle) (st : ServerState) (h : Option String)
    (hdb : st.dbConnected = true) (hfail : verifyFails oracle h = true) :
    ∃ r : Rejection, r.status = 401 ∧
      getUsersRoute oracle st h = ⟨.rejected r, false, []⟩ ∧
      getOrdersRoute oracle st h = ⟨.rejected r, false, []⟩ ∧
      getBooksRoute oracle st h = ⟨.rejected r, false, []⟩ ∧
      (∀ pe, getOrdersByEmailRoute oracle st h pe = ⟨.rejected r, false, []⟩) ∧
      (∀ body now,
        postReviewsRoute oracle st h body now = (⟨.rejected r, false, []⟩, st.reviews)) := by
  obtain ⟨r, he⟩ := (verifyFails_iff oracle h).mp hfail
  obtain ⟨h1, h2, h3, h4, h5⟩ := routes_shortCircuit_on_error oracle st h r hdb he
  exact ⟨r, verifyFBToken_error_status oracle h r he, h1, h2, h3, h4, h5⟩

/-- Witness for C6: a present header whose token the provider rejects. -/
theorem verification_precedes_gate_witness :
    ∃ r : Rejection, r.status = 401 ∧
      getUsersRoute (fun _ => none) ⟨true, [⟨"a@x", "admin", "A", 0⟩], [], []⟩
          (some "Bearer junk") = ⟨.rejected r, false, []⟩ ∧
      getOrdersRoute (fun _ => none) ⟨true, [⟨"a@x", "admin", "A", 0⟩], [], []⟩
          (some "Bearer junk") = ⟨.rejected r, false, []⟩ ∧
      getBooksRoute (fun _ => none) ⟨true, [⟨"a@x", "admin", "A", 0⟩], [], []⟩
          (some "Bearer junk") = ⟨.rejected r, false, []⟩ ∧
      (∀ pe, getOrdersByEmailRoute (fun _ => none)
          ⟨true, [⟨"a@x", "admin", "A", 0⟩], [], []⟩ (some "Bearer junk") pe
          = ⟨.rejected r, false, []⟩) ∧
      (∀ body now, postReviewsRoute (fun _ => none)
          ⟨true, [⟨"a@x", "admin", "A", 0⟩], [], []⟩ (some "Bearer junk") body now
          = (⟨.rejected r, false, []⟩, [])) :=
  verification_precedes_gate (fun _ => none)
    ⟨true, [⟨"a@x", "admin", "A", 0⟩], [], []⟩ (some "Bearer junk") rfl rfl

/-- C8: store-unavailable rejection — while the document-store connection
is not confirmed live, every modelled route is rejected by `ensureDb` with
the distinct 503 response (status different from `Forbidden`'s 403), no
handler runs, and no store operation is issued. -/
theorem store_unavailable_rejection
    (oracle : TokenOracle) (st : ServerState) (h : Option String)
    (hdb : st.dbConnected = false) :
    getUsersRoute oracle st h = ⟨.rejected storeUnavailable, false, []⟩ ∧
    getOrdersRoute oracle st h = ⟨.rejected storeUnavailable, false, []⟩ ∧
    getBooksRoute oracle st h = ⟨.rejected storeUnavailable, false, []⟩ ∧
    (∀ pe, getOrdersByEmailRoute oracle st h pe
      = ⟨.rejected storeUnavailable, false, []⟩) ∧
    (∀ body now, postReviewsRoute oracle st h body now
      = (⟨.rejected storeUnavailable, false, []⟩, st.reviews)) ∧
    storeUnavailable.status = 503 ∧ storeUnavailable.status ≠ 403 := by
  refine ⟨?_, ?_, ?_, ?_, ?_, rfl, by decide⟩ <;>
    simp [getUsersRoute, getOrdersRoute, getBooksRoute, getOrdersByEmailRoute,
          postReviewsRoute, hdb, shortCircuit]

/-- Witness for C8: a concrete request while the store is down. -/
theorem store_unavailable_rejection_witness :
    getUsersRoute (fun _ => some ⟨"a@x", "u1"⟩) ⟨false, [], [], []⟩
      (some "Bearer tok") = ⟨.rejected storeUnavailable, false, []⟩ :=
  (store_unavailable_rejection (fun _ => some ⟨"a@x", "u1"⟩) ⟨false, [], [], []⟩
    (some "Bearer tok") rfl).1

/-- Counterexample to C5 as stated: a passing `GET /books` request by an
admin performs **two** `findOne`-by-email reads of the users collection —
one in the `verifyAdminOrLibrarian` gate and a second inside the handler —
both before the handler's books read, refuting "exactly one findOne-by-email
read of the users collection for that request — no more". -/
theorem books_second_role_lookup_cex :
    (getBooksRoute (fun t => if t = "tokA" then some ⟨"alice@x", "u1"⟩ else none)
        ⟨true, [⟨"alice@x", "admin", "Alice", 0⟩], [], []⟩
        (some "Bearer tokA")).handlerRan = true ∧
    (getBooksRoute (fun t => if t = "tokA" then some ⟨"alice@x", "u1"⟩ else none)
        ⟨true, [⟨"alice@x", "admin", "Alice", 0⟩], [], []⟩
        (some "Bearer tokA")).trace =
      [.usersFindOne "alice@x", .usersFindOne "alice@x", .booksFindAll] ∧
    (getBooksRoute (fun t => if t = "tokA" then some ⟨"alice@x", "u1"⟩ else none)
        ⟨true, [⟨"alice@x", "admin", "Alice", 0⟩], [], []⟩
        (some "Bearer tokA")).trace.countP StoreOp.isRoleLookup = 2 := by decide

/-- C5 (amended): each gate invocation performs exactly one
`findOne`-by-email read of the users collection, and a verified request to
`GET /users` or `GET /orders` performs exactly one role lookup in total;
`GET /books` alone performs a second role lookup inside its handler, so a
request that passes its gate performs exactly two (still exactly one when
the gate rejects). -/
theorem role_lookup_counts
    (oracle : TokenOracle) (st : ServerState) (h : Option String) (p : Principal)
    (hdb : st.dbConnected = true)
    (hver : verifyFBToken oracle h = .ok p) :
    (getUsersRoute oracle st h).trace.countP StoreOp.isRoleLookup = 1 ∧
    (getOrdersRoute oracle st h).trace.countP StoreOp.isRoleLookup = 1 ∧
    ((getBooksRoute oracle st h).handlerRan = true →
      (getBooksRoute oracle st h).trace.countP StoreOp.isRoleLookup = 2) ∧
    ((getBooksRoute oracle st h).handlerRan = false →
      (getBooksRoute oracle st h).trace.countP StoreOp.isRoleLookup = 1) := by
  refine ⟨?_, ?_, ?_, ?_⟩
  · cases hA : verifyAdmin st.users p.email <;>
      simp [getUsersRoute, hdb, hver, hA, StoreOp.isRoleLookup]
  · cases hA : verifyLibrarian st.users p.email <;>
      simp [getOrdersRoute, hdb, hver, hA, StoreOp.isRoleLookup]
  · intro hran
    cases hA : verifyAdminOrLibrarian st.users p.email with
    | reject r => simp [getBooksRoute, hdb, hver, hA] at hran
    | pass =>
      cases hf : findOneByEmail st.users p.email with
      | none => simp [getBooksRoute, hdb, hver, hA, hf, StoreOp.isRoleLookup]
      | some u =>
        by_cases hr : u.role = "admin" ∨ u.role = "librarian" <;>
          simp [getBooksRoute, hdb, hver, hA, hf, hr, StoreOp.isRoleLookup]
  · intro hran
    cases hA : verifyAdminOrLibrarian st.users p.email with
    | reject r => simp [getBooksRoute, hdb, hver, hA, StoreOp.isRoleLookup]
    | pass =>
      cases hf : findOneByEmail st.users p.email with
      | none => simp [getBooksRoute, hdb, hver, hA, hf] at hran
      | some u =>
        by_cases hr : u.role = "admin" ∨ u.role = "librarian" <;>
          simp [getBooksRoute, hdb, hver, hA, hf, hr] at hran

/-- Witness for C5 (amended) at a concrete admin request. -/
theorem role_lookup_counts_witness :
    (getUsersRoute (fun t => if t = "tokB" then some ⟨"adm@x", "u2"⟩ else none)
        ⟨true, [⟨"adm@x", "admin", "Adm", 0⟩], [], []⟩
        (some "Bearer tokB")).trace.countP StoreOp.isRoleLookup = 1 :=
  (role_lookup_counts (fun t => if t = "tokB" then some ⟨"adm@x", "u2"⟩ else none)
      ⟨true, [⟨"adm@x", "admin", "Adm", 0⟩], [], []⟩
      (some "Bearer tokB") ⟨"adm@x", "u2"⟩ rfl rfl).1

/-- C7: registration idempotence — when a record with the body's email
already exists, `POST /users` inserts nothing and answers the distinct
"user exists" signal; registering a fresh email and then registering it
again leaves exactly one record for that email, the second call changing
nothing. -/
theorem registration_idempotent
    (users : UsersStore) (body : RegBody) (now now2 : Nat) :
    (∀ u, findOneByEmail users body.email = some u →
      postUsers users body now = (users, .userExists)) ∧
    (findOneByEmail users body.email = none →
      (postUsers users body now).2 = .inserted ∧
      countByEmail (postUsers users body now).1 body.email = 1 ∧
      postUsers (postUsers users body now).1 body now2
        = ((postUsers users body now).1, .userExists)) := by
  constructor
  · intro u hu
    simp [postUsers, hu]
  · intro hn
    have hcount0 : countByEmail users body.email = 0 := by
      rw [countByEmail, List.countP_eq_zero]
      intro a ha
      simpa using List.find?_eq_none.mp hn a ha
    have hstore : (postUsers users body now).1
        = users ++ [⟨body.email, "user", body.name, now⟩] := by
      simp [postUsers, hn]
    have hfind : findOneByEmail (postUsers users body now).1 body.email
        = some ⟨body.email, "user", body.name, now⟩ := by
      rw [hstore, findOneByEmail, List.find?_append]
      rw [findOneByEmail] at hn
      rw [hn]
      simp [List.find?]
    refine ⟨by simp [postUsers, hn], ?_, ?_⟩
    · rw [hstore, countByEmail, List.countP_append]
      rw [countByEmail] at hcount0
      simp [hcount0]
    · set s1 := (postUsers users body now).1 with hs1
      unfold postUsers
      dsimp only
      rw [hfind]

/-- Witness for C7: registering `a@x` into an empty store, then again. -/
theorem registration_idempotent_witness :
    countByEmail (postUsers [] ⟨"a@x", "A", none⟩ 0).1 "a@x" = 1 ∧
    postUsers (postUsers [] ⟨"a@x", "A", none⟩ 0).1 ⟨"a@x", "A", none⟩ 1
      = ((postUsers [] ⟨"a@x", "A", none⟩ 0).1, .userExists) := by
  have h := (registration_idempotent [] ⟨"a@x", "A", none⟩ 0 1).2 rfl
  exact ⟨h.2.1, h.2.2⟩

/-- C10: registration cannot self-assign a privileged role — whatever
`role` field the client supplies (here universally quantified inside
`body`, including `some "admin"`), a successful `POST /users` inserts
exactly one record with role `"user"` and the server-set `createdAt`. -/
theorem registration_role_overwritten
    (users : UsersStore) (body : RegBody) (now : Nat)
    (hn : findOneByEmail users body.email = none) :
    (postUsers users body now).1
      = users ++ [⟨body.email, "user", body.name, now⟩] ∧
    (postUsers users body now).2 = .inserted := by
  constructor <;> simp [postUsers, hn]

/-- Witness for C10: a body that tries to register as `admin` is stored
with role `user`. -/
theorem registration_role_overwritten_witness :
    (postUsers [] ⟨"eve@x", "Eve", some "admin"⟩ 7).1
      = [⟨"eve@x", "user", "Eve", 7⟩] := by
  have h := registration_role_overwritten [] ⟨"eve@x", "Eve", some "admin"⟩ 7 rfl
  simpa using h.1

/-- Counterexample to C3 as stated: the same verified principal
(`alice@x`, via the same token) sends two `POST /reviews` requests that
differ only in the client-supplied body `userEmail`; with `alice@x` the
purchase check rejects her, with `bob@x` (a purchaser of the book) the
request is accepted — so an authorization decision depends on a
client-supplied email, not only on the verified one. -/
theorem reviews_client_email_cex :
    (postReviewsRoute (fun t => if t = "tokA" then some ⟨"alice@x", "u1"⟩ else none)
        ⟨true, [], [⟨"b1", "bob@x"⟩], []⟩ (some "Bearer tokA")
        ⟨"b1", "alice@x", 5, "great", "Alice", "p"⟩ 0).1.result
      = .rejected ⟨403, "You must purchase this book to review"⟩ ∧
    (postReviewsRoute (fun t => if t = "tokA" then some ⟨"alice@x", "u1"⟩ else none)
        ⟨true, [], [⟨"b1", "bob@x"⟩], []⟩ (some "Bearer tokA")
        ⟨"b1", "bob@x", 5, "great", "Alice", "p"⟩ 0).1.result = .ok := by decide

/-- C3 (amended): the role gates consume only the verified email; the
self-access check of `GET /orders/:email` compares the client-supplied
path email with the verified one and fails closed — it accepts exactly
when they are equal, rejects 403 without touching the store otherwise,
and on acceptance reads only the principal's own orders.  The exception
is `POST /reviews`, whose purchase and duplicate-review checks use the
client-supplied body `userEmail`: its outcome and store effect are
independent of which verified principal sent the request. -/
theorem authorization_email_sources
    (oracle : TokenOracle) (st : ServerState) (h : Option String) (p : Principal)
    (hdb : st.dbConnected = true) (hver : verifyFBToken oracle h = .ok p) :
    (∀ pe, (getOrdersByEmailRoute oracle st h pe).result = .ok ↔ pe = p.email) ∧
    (∀ pe, pe ≠ p.email →
      getOrdersByEmailRoute oracle st h pe
        = ⟨.rejected ⟨403, "Forbidden"⟩, true, []⟩) ∧
    getOrdersByEmailRoute oracle st h p.email
      = ⟨.ok, true, [.ordersFindByCustomer p.email]⟩ ∧
    (∀ h2 p2 body now, verifyFBToken oracle h2 = .ok p2 →
      (postReviewsRoute oracle st h body now).1.result
        = (postReviewsRoute oracle st h2 body now).1.result ∧
      (postReviewsRoute oracle st h body now).2
        = (postReviewsRoute oracle st h2 body now).2) := by
  refine ⟨?_, ?_, ?_, ?_⟩
  · intro pe
    by_cases hpe : pe = p.email <;>
      simp [getOrdersByEmailRoute, hdb, hver, hpe]
  · intro pe hpe
    simp [getOrdersByEmailRoute, hdb, hver, hpe]
  · simp [getOrdersByEmailRoute, hdb, hver]
  · intro h2 p2 body now hv2
    constructor <;> simp [postReviewsRoute, hdb, hver, hv2]

/-- Witness for C3 (amended): a verified principal reading their own
orders. -/
theorem authorization_email_sources_witness :
    getOrdersByEmailRoute
      (fun t => if t = "tokA" then some ⟨"alice@x", "u1"⟩ else none)
      ⟨true, [], [⟨"b1", "bob@x"⟩], []⟩ (some "Bearer tokA") "alice@x"
      = ⟨.ok, true, [.ordersFindByCustomer "alice@x"]⟩ :=
  (authorization_email_sources
    (fun t => if t = "tokA" then some ⟨"alice@x", "u1"⟩ else none)
    ⟨true, [], [⟨"b1", "bob@x"⟩], []⟩ (some "Bearer tokA")
    ⟨"alice@x", "u1"⟩ rfl rfl).2.2.1

end SwiftBook
